import Mathlib

/-!
A shallow embedding of `panda/src/event/pythonTask.cxx` (class `PythonTask`).

Python objects are modelled by `PyVal` (non-sequence values) and `PyObj`
(adding sequences of such values — sequences of non-sequence values are the
granularity this component's observable behavior needs); the task's fields
by `TaskState`; the observable side effects of each C++ member function
(invocations of Python callables, owner-method notifications, logged
errors, `nassert_raise` calls) by a trace of `Event`s that each operation
returns alongside its result.

Members of the base class `AsyncTask` (which is not part of this
repository excerpt) are modelled from the spec where PythonTask calls into
them; each such definition carries a doc comment saying so.
-/

/-- A non-sequence Python value, at the granularity the task code
distinguishes them: `none` is `Py_None`; `int`/`float` are the numeric
objects recognized by `PyInt_Check`/`PyFloat_AsDouble`; `str` by
`PyString_AsString`; `callable` is an opaque invocable object (satisfies
`PyCallable_Check`); `obj` is any other foreign object (used for owners);
`taskRef` is a fresh Python wrapper around the task itself, as built by
`DTool_CreatePyInstanceTyped`. -/
inductive PyVal where
  | none
  | int (n : Int)
  | float (x : Int)
  | str (s : String)
  | callable (id : Nat)
  | obj (id : Nat)
  | taskRef
  deriving DecidableEq, Repr

/-- A Python value: either a non-sequence value or a sequence (tuple or
list) of non-sequence values. -/
inductive PyObj where
  | val (v : PyVal)
  | tuple (xs : List PyVal)
  | list (xs : List PyVal)
  deriving DecidableEq, Repr

/-- `Py_None` as a `PyObj`. -/
def pyNone : PyObj := PyObj.val PyVal.none

/-- `PyCallable_Check`: only `callable` objects are invocable in this
model. -/
def isCallable : PyObj → Bool
  | PyObj.val (PyVal.callable _) => true
  | _ => false

/-- `PySequence_Check`: tuples, lists and strings are sequences. -/
def isSequence : PyObj → Bool
  | PyObj.tuple _ => true
  | PyObj.list _ => true
  | PyObj.val (PyVal.str _) => true
  | _ => false

/-- `PySequence_Tuple`: the elements of a sequence (a string is a sequence
of its one-character strings). -/
def seqElems : PyObj → List PyVal
  | PyObj.tuple xs => xs
  | PyObj.list xs => xs
  | PyObj.val (PyVal.str s) => s.data.map (fun c => PyVal.str (String.singleton c))
  | _ => []

/-- `PyFloat_AsDouble`: succeeds on numeric objects, fails (raising a
TypeError) otherwise. -/
def asDouble : PyObj → Option Int
  | PyObj.val (PyVal.int n) => some n
  | PyObj.val (PyVal.float x) => some x
  | _ => Option.none

/-- `PyString_AsString`: succeeds on string objects, fails otherwise. -/
def asString : PyObj → Option String
  | PyObj.val (PyVal.str s) => some s
  | _ => Option.none

/-- `PyObject_Repr`, at the granularity the diagnostics need. -/
def pyRepr : PyObj → String
  | PyObj.val PyVal.none => "None"
  | PyObj.val (PyVal.int n) => toString n
  | PyObj.val (PyVal.float x) => toString x ++ ".0"
  | PyObj.val (PyVal.str s) => s
  | PyObj.val (PyVal.callable i) => "callable" ++ toString i
  | PyObj.val (PyVal.obj i) => "object" ++ toString i
  | PyObj.val PyVal.taskRef => "task"
  | PyObj.tuple _ => "tuple"
  | PyObj.list _ => "list"

/-- `AsyncTask::DoneStatus`, the continuation directive returned by
`do_task`.  Modelled from the spec: the enum itself lives in the (excluded)
AsyncTask header; the spec fixes the integer codes (reading `done`, `cont`,
`again` yields their integer codes; returning 1 yields Continue and 2
yields Again, so `DS_done = 0`, `DS_cont = 1`, `DS_again = 2`). -/
inductive DoneStatus where
  | DS_done
  | DS_cont
  | DS_again
  | DS_abort
  deriving DecidableEq, Repr

/-- The integer code of each directive, as exposed to Python. -/
def dsCode : DoneStatus → Int
  | DoneStatus.DS_done => 0
  | DoneStatus.DS_cont => 1
  | DoneStatus.DS_again => 2
  | DoneStatus.DS_abort => 3

/-- `AsyncTask::State`, restricted to the two states the spec's machine
has.  Modelled from the spec: the code only ever tests `_state !=
S_inactive`, so Inactive/Active suffices. -/
inductive TState where
  | inactive
  | active
  deriving DecidableEq, Repr

/-- The fields of a `PythonTask` after construction (when none of the
pointers is NULL any longer): the work callable `_function`, the stored
argument template `_args` (contents of the tuple), the completion callback
`_upon_death`, the owner `_owner`, the open attribute bag `_dict`, the
append-self flag `_append_task`, and the `AsyncTask` base fields the code
reads (`_state`, `_task_id`, name, delay, elapsed time). -/
structure TaskState where
  _function : PyObj
  _args : List PyVal
  _upon_death : PyObj
  _owner : PyObj
  _dict : List (String × PyObj)
  _append_task : Bool
  _state : TState
  _task_id : Int
  _name : String
  _delay : Option Int
  _elapsed : Int
  deriving DecidableEq, Repr

/-- An observable effect of running one of the task's member functions. -/
inductive Event where
  | ownerMethodCalled (owner : PyObj) (method : String) (args : List PyVal)
  | funcCalled (fn : PyObj) (args : List PyVal)
  | workInvoked (fn : PyObj) (args : List PyVal)
  | errorLogged (msg : String)
  | raised (msg : String)
  | baseUponDeath (clean : Bool)
  | baseUponBirth
  deriving DecidableEq, Repr

/-- `AsyncTask::output`, the rendering of `*this` used in diagnostics.
Modelled from the spec: it identifies the task by its display name. -/
def taskRepr (st : TaskState) : String :=
  "PythonTask " ++ st._name

/-- Association-list update for the attribute bag (`PyDict_SetItemString`). -/
def dictSet (d : List (String × PyObj)) (k : String) (v : PyObj) :
    List (String × PyObj) :=
  match d with
  | [] => [(k, v)]
  | (k0, v0) :: rest =>
    if k0 = k then (k, v) :: rest else (k0, v0) :: dictSet rest k v

/-- Association-list lookup for the attribute bag
(`PyMapping_GetItemString`; `Option.none` models the KeyError). -/
def dictGet (d : List (String × PyObj)) (k : String) : Option PyObj :=
  match d with
  | [] => Option.none
  | (k0, v0) :: rest => if k0 = k then some v0 else dictGet rest k

/-- Association-list deletion for the attribute bag
(`PyDict_DelItemString`; `Option.none` models the KeyError when absent). -/
def dictDel (d : List (String × PyObj)) (k : String) :
    Option (List (String × PyObj)) :=
  match d with
  | [] => Option.none
  | (k0, v0) :: rest =>
    if k0 = k then some rest
    else (dictDel rest k).map (fun r => (k0, v0) :: r)

/-- `PythonTask::set_function`: stores the new work callable (incrementing
its reference), then raises if it is not invocable.  Note the order: the
non-invocable value is stored before the check fires. -/
def set_function (st : TaskState) (function : PyObj) :
    TaskState × List Event :=
  ({ st with _function := function },
   if isCallable function then []
   else [Event.raised "Invalid function passed to PythonTask"])

/-- `PythonTask::set_args`: `Py_None` becomes the empty tuple; a sequence
becomes its tuple of elements; anything else raises and leaves the template
as the empty tuple.  `_append_task` is updated in every case. -/
def set_args (st : TaskState) (args : PyObj) (append_task : Bool) :
    TaskState × List Event :=
  if args = pyNone then
    ({ st with _args := [], _append_task := append_task }, [])
  else if isSequence args then
    ({ st with _args := seqElems args, _append_task := append_task }, [])
  else
    ({ st with _args := [], _append_task := append_task },
     [Event.raised "Invalid args passed to PythonTask"])

/-- `PythonTask::get_args`: if `_append_task` is set, build a fresh tuple of
the template's elements followed by a new wrapper around the task itself
(never storing it back); otherwise return the template. -/
def get_args (st : TaskState) : List PyVal :=
  if st._append_task then st._args ++ [PyVal.taskRef] else st._args

/-- `PythonTask::set_upon_death`: stores the new completion callback, then
raises if it is neither `Py_None` nor invocable.  As with `set_function`,
the invalid value is stored before the check fires. -/
def set_upon_death (st : TaskState) (upon_death : PyObj) :
    TaskState × List Event :=
  ({ st with _upon_death := upon_death },
   if upon_death ≠ pyNone ∧ ¬ isCallable upon_death then
     [Event.raised "Invalid upon_death function passed to PythonTask"]
   else [])

/-- `PythonTask::call_function`: if the function is not `Py_None`, invoke
it with a single argument, a fresh wrapper around the task itself. -/
def call_function (fn : PyObj) : List Event :=
  if fn ≠ pyNone then [Event.funcCalled fn [PyVal.taskRef]] else []

/-- `PythonTask::call_owner_method`: if the owner is not `Py_None`, look up
the named method on it; if absent, log an error and continue; otherwise
invoke it with the task as sole argument.  `hm` is the environment telling
which owners define which methods (`PyObject_GetAttrString` success). -/
def call_owner_method (hm : PyObj → String → Bool) (owner : PyObj)
    (method : String) : List Event :=
  if owner ≠ pyNone then
    if hm owner method then
      [Event.ownerMethodCalled owner method [PyVal.taskRef]]
    else
      [Event.errorLogged ("Owner object added to task has no method " ++
        method)]
  else []

/-- `PythonTask::upon_death`: chains to `AsyncTask::upon_death(clean_exit)`
(modelled as the `baseUponDeath` event), then delivers `_clearTask` to the
owner, then invokes the stored completion callback. -/
def upon_death (hm : PyObj → String → Bool) (st : TaskState)
    (clean_exit : Bool) : List Event :=
  Event.baseUponDeath clean_exit ::
    (call_owner_method hm st._owner "_clearTask" ++
     call_function st._upon_death)

/-- `PythonTask::upon_birth`: chains to `AsyncTask::upon_birth` (modelled
as the `baseUponBirth` event), then delivers `_addTask` to the owner. -/
def upon_birth (hm : PyObj → String → Bool) (st : TaskState) : List Event :=
  Event.baseUponBirth :: call_owner_method hm st._owner "_addTask"

/-- `PythonTask::set_owner`: if the old owner is set (non-NULL and not
`Py_None`; after construction the pointer is never NULL) and the task is
not inactive, run the full death hook with `clean_exit = false`; then
replace the owner; then, if the new owner is not `Py_None` and the task is
not inactive, run the birth hook. -/
def set_owner (hm : PyObj → String → Bool) (st : TaskState) (owner : PyObj) :
    TaskState × List Event :=
  let e1 := if st._owner ≠ pyNone ∧ st._state ≠ TState.inactive then
      upon_death hm st false
    else []
  let st1 := { st with _owner := owner }
  let e2 := if owner ≠ pyNone ∧ st1._state ≠ TState.inactive then
      upon_birth hm st1
    else []
  (st1, e1 ++ e2)

/-- `AsyncTask::set_delay`.  Modelled from the spec: stores the given
duration as the task's configured delay (the setter itself lives in the
excluded AsyncTask base). -/
def set_delay (st : TaskState) (delay : Int) : TaskState :=
  { st with _delay := some delay }

/-- `AsyncTask::set_name`.  Modelled from the spec: stores the display
name (the setter itself lives in the excluded AsyncTask base). -/
def set_name (st : TaskState) (name : String) : TaskState :=
  { st with _name := name }

/-- `PythonTask::__setattr__(name, v)`: `delayTime` converts the value with
`PyFloat_AsDouble` and calls `set_delay` only if the conversion succeeded
(a failed conversion leaves a pending TypeError); `name` converts with
`PyString_AsString` and calls `set_name` on success; `id` always raises;
every other name is stored in the open attribute bag. -/
def setattr (st : TaskState) (attr : String) (v : PyObj) :
    TaskState × List Event :=
  if attr = "delayTime" then
    match asDouble v with
    | some d => (set_delay st d, [])
    | Option.none => (st, [Event.raised "TypeError"])
  else if attr = "name" then
    match asString v with
    | some s => (set_name st s, [])
    | Option.none => (st, [Event.raised "TypeError"])
  else if attr = "id" then
    (st, [Event.raised "Cannot set constant value"])
  else
    ({ st with _dict := dictSet st._dict attr v }, [])

/-- `PythonTask::__setattr__(name)` (the delete form): removes the name
from the open attribute bag unconditionally — no reserved name is
intercepted here; an absent key raises a KeyError. -/
def delattr (st : TaskState) (attr : String) : TaskState × List Event :=
  match dictDel st._dict attr with
  | some d => ({ st with _dict := d }, [])
  | Option.none => (st, [Event.raised "KeyError"])

/-- `PythonTask::__getattr__`: `time`, `done`, `cont`, `again`, `name` and
`id` are answered from typed storage; every other name (including `delay`
and `delayTime`) is looked up in the open attribute bag, `Option.none`
modelling the KeyError when absent. -/
def getattr (st : TaskState) (attr : String) : Option PyObj :=
  if attr = "time" then some (PyObj.val (PyVal.float st._elapsed))
  else if attr = "done" then some (PyObj.val (PyVal.int (dsCode DoneStatus.DS_done)))
  else if attr = "cont" then some (PyObj.val (PyVal.int (dsCode DoneStatus.DS_cont)))
  else if attr = "again" then some (PyObj.val (PyVal.int (dsCode DoneStatus.DS_again)))
  else if attr = "name" then some (PyObj.val (PyVal.str st._name))
  else if attr = "id" then some (PyObj.val (PyVal.int st._task_id))
  else dictGet st._dict attr

/-- `PythonTask::do_task`: builds the call arguments with `get_args`,
invokes the work callable, and maps its outcome (`result`, with
`Option.none` standing for a raised exception / NULL return) to a
directive: exception → log and `DS_abort`; `Py_None` → `DS_done`; the
integer codes 0, 1, 2 → themselves; the legacy −1 → `DS_done`; anything
else → a raised diagnostic embedding the repr of the value, and
`DS_abort`.  No task field is written, so the state is returned
unchanged. -/
def do_task (st : TaskState) (result : Option PyObj) :
    TaskState × DoneStatus × List Event :=
  let inv := Event.workInvoked st._function (get_args st)
  match result with
  | Option.none =>
    (st, DoneStatus.DS_abort,
     [inv, Event.errorLogged ("Exception occurred in " ++ taskRepr st)])
  | some r =>
    match r with
    | PyObj.val PyVal.none => (st, DoneStatus.DS_done, [inv])
    | PyObj.val (PyVal.int n) =>
      if n = dsCode DoneStatus.DS_done then (st, DoneStatus.DS_done, [inv])
      else if n = dsCode DoneStatus.DS_cont then
        (st, DoneStatus.DS_cont, [inv])
      else if n = dsCode DoneStatus.DS_again then
        (st, DoneStatus.DS_again, [inv])
      else if n = -1 then (st, DoneStatus.DS_done, [inv])
      else
        (st, DoneStatus.DS_abort,
         [inv, Event.raised (taskRepr st ++ " returned " ++ pyRepr r)])
    | _ =>
      (st, DoneStatus.DS_abort,
       [inv, Event.raised (taskRepr st ++ " returned " ++ pyRepr r)])

/-- `PythonTask::PythonTask(function, name)`: all four Python fields start
NULL, then `set_function(function)`, `set_args(Py_None, true)`,
`set_upon_death(Py_None)`, `set_owner(Py_None)` run in order, and `_dict`
becomes a fresh empty dict.  A new task starts Inactive with the given
immutable id (assigned by the excluded AsyncTask constructor, modelled from
the spec: assigned once at creation). -/
def mkPythonTask (hm : PyObj → String → Bool) (function : PyObj)
    (name : String) (id : Int) : TaskState × List Event :=
  let st0 : TaskState :=
    { _function := pyNone, _args := [], _upon_death := pyNone,
      _owner := pyNone, _dict := [], _append_task := false,
      _state := TState.inactive, _task_id := id, _name := name,
      _delay := Option.none, _elapsed := 0 }
  let r1 := set_function st0 function
  let r2 := set_args r1.1 pyNone true
  let r3 := set_upon_death r2.1 pyNone
  let r4 := set_owner hm r3.1 pyNone
  ({ r4.1 with _dict := [] }, r1.2 ++ r2.2 ++ r3.2 ++ r4.2)

/-- The scheduler-driven Active→Inactive transition (`deactivate` in the
spec).  Modelled from the spec: the task manager is excluded; on removal or
completion it marks the task inactive and calls `PythonTask::upon_death`
(which is embedded from the source) with the clean-exit flag. -/
def deactivate (hm : PyObj → String → Bool) (st : TaskState)
    (clean_exit : Bool) : TaskState × List Event :=
  ({ st with _state := TState.inactive }, upon_death hm st clean_exit)

/-- Whether an event is an invocation of the completion callback
(`call_function` on `_upon_death` emits `funcCalled`). -/
def isDeathCallback : Event → Bool
  | Event.funcCalled _ _ => true
  | _ => false

/-- Whether an event is a raised error (`nassert_raise` or a pending
Python error). -/
def isRaised : Event → Bool
  | Event.raised _ => true
  | _ => false

/-- Whether an event is a delivery of the owner's `_clearTask` method. -/
def isClearTaskCall : Event → Bool
  | Event.ownerMethodCalled _ m _ => m = "_clearTask"
  | _ => false

/-- An owner-method environment in which every owner defines every method. -/
def hmAll : PyObj → String → Bool := fun _ _ => true

/-- A concrete owner object. -/
def owner0 : PyObj := PyObj.val (PyVal.obj 0)

/-- A second concrete owner object. -/
def owner1 : PyObj := PyObj.val (PyVal.obj 1)

/-- A concrete completion callback. -/
def cb7 : PyObj := PyObj.val (PyVal.callable 7)

/-- A concrete work callable. -/
def work5 : PyObj := PyObj.val (PyVal.callable 5)

/-- A concrete Active task with owner `owner0`, completion callback `cb7`,
work callable `work5`, an empty argument template and append-self
enabled. -/
def stA : TaskState :=
  { _function := work5, _args := [], _upon_death := cb7, _owner := owner0,
    _dict := [], _append_task := true, _state := TState.active,
    _task_id := 42, _name := "t", _delay := Option.none, _elapsed := 0 }

theorem countP_isDeathCallback_call_owner_method
    (hm : PyObj → String → Bool) (o : PyObj) (m : String) :
    (call_owner_method hm o m).countP isDeathCallback = 0 := by
  unfold call_owner_method
  split
  · split <;> rfl
  · rfl

theorem countP_isDeathCallback_call_function (fn : PyObj) :
    (call_function fn).countP isDeathCallback =
      if fn ≠ pyNone then 1 else 0 := by
  unfold call_function
  split <;> rfl

theorem countP_isDeathCallback_upon_death (hm : PyObj → String → Bool)
    (st : TaskState) (c : Bool) :
    (upon_death hm st c).countP isDeathCallback =
      if st._upon_death ≠ pyNone then 1 else 0 := by
  unfold upon_death
  rw [List.countP_cons_of_neg _ _ (by simp [isDeathCallback]),
    List.countP_append, countP_isDeathCallback_call_owner_method,
    countP_isDeathCallback_call_function, Nat.zero_add]

theorem countP_isDeathCallback_upon_birth (hm : PyObj → String → Bool)
    (st : TaskState) :
    (upon_birth hm st).countP isDeathCallback = 0 := by
  unfold upon_birth
  rw [List.countP_cons_of_neg _ _ (by simp [isDeathCallback]),
    countP_isDeathCallback_call_owner_method]

theorem countP_isDeathCallback_set_owner (hm : PyObj → String → Bool)
    (st : TaskState) (o : PyObj) :
    (set_owner hm st o).2.countP isDeathCallback =
      if st._owner ≠ pyNone ∧ st._state ≠ TState.inactive ∧
          st._upon_death ≠ pyNone then 1 else 0 := by
  simp only [set_owner]
  rw [List.countP_append]
  have he2 : (if o ≠ pyNone ∧
        ({ st with _owner := o } : TaskState)._state ≠ TState.inactive then
        upon_birth hm { st with _owner := o }
      else []).countP isDeathCallback = 0 := by
    split
    · exact countP_isDeathCallback_upon_birth hm _
    · rfl
  rw [he2, Nat.add_zero]
  by_cases h1 : st._owner ≠ pyNone ∧ st._state ≠ TState.inactive
  · rw [if_pos h1, countP_isDeathCallback_upon_death]
    by_cases h3 : st._upon_death ≠ pyNone
    · rw [if_pos h3, if_pos ⟨h1.1, h1.2, h3⟩]
    · rw [if_neg h3, if_neg fun hc => h3 hc.2.2]
  · rw [if_neg h1, List.countP_nil, if_neg fun hc => h1 ⟨hc.1, hc.2.1⟩]

/-- **C1** (counterexample): on a concrete Active→Inactive transition with
an owner and a completion callback both set, the `_clearTask` notification
is delivered *before* the completion callback, so the claim's order
(callback before cleared) fails. -/
theorem C1_counterexample :
    ((deactivate hmAll stA true).2 =
      [Event.baseUponDeath true,
       Event.ownerMethodCalled owner0 "_clearTask" [PyVal.taskRef],
       Event.funcCalled cb7 [PyVal.taskRef]]) ∧
    ¬ ((deactivate hmAll stA true).2.findIdx isDeathCallback <
       (deactivate hmAll stA true).2.findIdx isClearTaskCall) := by
  decide

/-- **C1** (amended): on every Active→Inactive transition with a non-none
owner defining `_clearTask` and a non-none completion callback, the owner's
"cleared" notification is delivered first and the completion callback is
invoked after it, with the task itself as its sole argument. -/
theorem C1_clearTask_before_death_callback
    (hm : PyObj → String → Bool) (st : TaskState) (clean : Bool)
    (h1 : st._owner ≠ pyNone) (h2 : hm st._owner "_clearTask" = true)
    (h3 : st._upon_death ≠ pyNone) :
    (deactivate hm st clean).1._state = TState.inactive ∧
    (deactivate hm st clean).2 =
      [Event.baseUponDeath clean,
       Event.ownerMethodCalled st._owner "_clearTask" [PyVal.taskRef],
       Event.funcCalled st._upon_death [PyVal.taskRef]] := by
  unfold deactivate upon_death call_owner_method call_function
  simp [h1, h2, h3]

/-- Witness for `C1_clearTask_before_death_callback` at the concrete task
`stA`. -/
theorem C1_witness :
    (deactivate hmAll stA true).1._state = TState.inactive ∧
    (deactivate hmAll stA true).2 =
      [Event.baseUponDeath true,
       Event.ownerMethodCalled stA._owner "_clearTask" [PyVal.taskRef],
       Event.funcCalled stA._upon_death [PyVal.taskRef]] :=
  C1_clearTask_before_death_callback hmAll stA true (by decide) (by decide)
    (by decide)

/-- **C2** (counterexample): rebinding the owner of a concrete task that
stays Active fires the death hook (the completion callback is invoked
once), so the claim that only Active→Inactive transitions fire it fails. -/
theorem C2_counterexample :
    (set_owner hmAll stA owner1).1._state = TState.active ∧
    (set_owner hmAll stA owner1).2.countP isDeathCallback = 1 := by
  decide

/-- **C2** (amended): the death hook (completion callback) fires exactly
once per `upon_death` invocation: once per Active→Inactive transition
(which reports the clean-exit flag), and additionally once per `set_owner`
call made while the task is Active with a non-none previous owner; no
other operation (`set_function`, `set_args`, `set_upon_death`, `do_task`,
attribute writes or deletes) ever fires it. -/
theorem C2_death_hook_per_upon_death
    (hm : PyObj → String → Bool) (st : TaskState) (clean a : Bool)
    (o f args v : PyObj) (r : Option PyObj) (n : String) :
    ((deactivate hm st clean).2.countP isDeathCallback =
      if st._upon_death ≠ pyNone then 1 else 0) ∧
    (deactivate hm st clean).2.head? = some (Event.baseUponDeath clean) ∧
    ((set_owner hm st o).2.countP isDeathCallback =
      if st._owner ≠ pyNone ∧ st._state ≠ TState.inactive ∧
          st._upon_death ≠ pyNone then 1 else 0) ∧
    (set_function st f).2.countP isDeathCallback = 0 ∧
    (set_args st args a).2.countP isDeathCallback = 0 ∧
    (set_upon_death st f).2.countP isDeathCallback = 0 ∧
    (do_task st r).2.2.countP isDeathCallback = 0 ∧
    (setattr st n v).2.countP isDeathCallback = 0 ∧
    (delattr st n).2.countP isDeathCallback = 0 := by
  refine ⟨?_, ?_, ?_, ?_, ?_, ?_, ?_, ?_, ?_⟩
  · unfold deactivate
    exact countP_isDeathCallback_upon_death hm st clean
  · unfold deactivate upon_death
    rfl
  · exact countP_isDeathCallback_set_owner hm st o
  · unfold set_function
    split <;> rfl
  · unfold set_args
    split
    · rfl
    · split <;> rfl
  · unfold set_upon_death
    split <;> rfl
  · unfold do_task
    rcases r with _ | r
    · rfl
    rcases r with v0 | xs | xs
    · rcases v0 with _ | n0 | x | s | i | i | _
      · rfl
      · simp only []
        split <;> first | rfl | (split <;> first | rfl |
          (split <;> first | rfl | (split <;> rfl)))
      all_goals rfl
    all_goals rfl
  · unfold setattr
    split
    · rcases asDouble v with _ | d <;> rfl
    split
    · rcases asString v with _ | s <;> rfl
    split <;> rfl
  · unfold delattr
    rcases dictDel st._dict n with _ | d <;> rfl

/-- **C3** (counterexample): writing the reserved name `time` is not
intercepted — the value is stored in the open attribute bag (and no error
is raised), so the claim that every reserved name is intercepted on writes
fails. -/
theorem C3_counterexample :
    (setattr stA "time" (PyObj.val (PyVal.int 5))).1._dict =
      [("time", PyObj.val (PyVal.int 5))] ∧
    (setattr stA "time" (PyObj.val (PyVal.int 5))).2 = [] := by
  decide

/-- **C3** (amended): writes intercept exactly `delayTime`, `name` and
`id` (every write to `id` fails and changes nothing); writes to `delay`,
`time`, `done`, `cont` and `again` are stored in the open attribute bag.
Reads intercept exactly `time`, `done`, `cont`, `again`, `name` and `id`
(answered from typed storage, never from the bag), while reads of `delay`
and `delayTime` go to the bag.  Deletes intercept nothing: every delete
operates on the bag alone. -/
theorem C3_reserved_name_interception (st : TaskState) (v : PyObj)
    (n : String) :
    (setattr st "delayTime" v).1._dict = st._dict ∧
    (setattr st "name" v).1._dict = st._dict ∧
    (setattr st "id" v).1 = st ∧
    (setattr st "id" v).2 = [Event.raised "Cannot set constant value"] ∧
    (setattr st "time" v).1._dict = dictSet st._dict "time" v ∧
    (setattr st "delay" v).1._dict = dictSet st._dict "delay" v ∧
    (setattr st "done" v).1._dict = dictSet st._dict "done" v ∧
    (setattr st "cont" v).1._dict = dictSet st._dict "cont" v ∧
    (setattr st "again" v).1._dict = dictSet st._dict "again" v ∧
    getattr st "time" = some (PyObj.val (PyVal.float st._elapsed)) ∧
    getattr st "done" = some (PyObj.val (PyVal.int (dsCode DoneStatus.DS_done))) ∧
    getattr st "cont" = some (PyObj.val (PyVal.int (dsCode DoneStatus.DS_cont))) ∧
    getattr st "again" = some (PyObj.val (PyVal.int (dsCode DoneStatus.DS_again))) ∧
    getattr st "name" = some (PyObj.val (PyVal.str st._name)) ∧
    getattr st "id" = some (PyObj.val (PyVal.int st._task_id)) ∧
    getattr st "delayTime" = dictGet st._dict "delayTime" ∧
    getattr st "delay" = dictGet st._dict "delay" ∧
    (delattr st n).1._dict = (dictDel st._dict n).getD st._dict := by
  refine ⟨?_, ?_, ?_, ?_, ?_, ?_, ?_, ?_, ?_, ?_, ?_, ?_, ?_, ?_, ?_, ?_,
    ?_, ?_⟩
  · rcases h : asDouble v with _ | d <;> simp [setattr, set_delay, h]
  · rcases h : asString v with _ | s <;> simp [setattr, set_name, h]
  · simp [setattr]
  · simp [setattr]
  · simp [setattr]
  · simp [setattr]
  · simp [setattr]
  · simp [setattr]
  · simp [setattr]
  · simp [getattr]
  · simp [getattr]
  · simp [getattr]
  · simp [getattr]
  · simp [getattr]
  · simp [getattr]
  · simp [getattr]
  · simp [getattr]
  · rcases h : dictDel st._dict n with _ | d <;> simp [delattr, h]

/-- **C4** (confirmed): `do_task` maps the work callable's outcome to a
directive exactly as claimed: the no-value sentinel (`Py_None`) yields
`DS_done`; 1 yields `DS_cont`; 2 yields `DS_again`; the legacy −1 yields
`DS_done`; 99 yields `DS_abort` with a raised diagnostic embedding the
rendering of the value and the task's name; a raising work callable
(`Option.none` result, the NULL return) yields `DS_abort` with the error
logged and nothing raised out of `do_task`. -/
theorem C4_result_protocol (st : TaskState) :
    (do_task st (some pyNone)).2.1 = DoneStatus.DS_done ∧
    (do_task st (some (PyObj.val (PyVal.int 1)))).2.1 = DoneStatus.DS_cont ∧
    (do_task st (some (PyObj.val (PyVal.int 2)))).2.1 = DoneStatus.DS_again ∧
    (do_task st (some (PyObj.val (PyVal.int (-1))))).2.1 =
      DoneStatus.DS_done ∧
    (do_task st (some (PyObj.val (PyVal.int 99)))).2.1 =
      DoneStatus.DS_abort ∧
    (do_task st (some (PyObj.val (PyVal.int 99)))).2.2 =
      [Event.workInvoked st._function (get_args st),
       Event.raised (taskRepr st ++ " returned " ++
         pyRepr (PyObj.val (PyVal.int 99)))] ∧
    (do_task st Option.none).2.1 = DoneStatus.DS_abort ∧
    (do_task st Option.none).2.2 =
      [Event.workInvoked st._function (get_args st),
       Event.errorLogged ("Exception occurred in " ++ taskRepr st)] ∧
    (do_task st Option.none).2.2.countP isRaised = 0 := by
  refine ⟨?_, ?_, ?_, ?_, ?_, ?_, ?_, ?_, ?_⟩ <;>
    simp [do_task, dsCode, pyNone, isRaised, List.countP_cons]

/-- Whether an event is a delivery of method `m` to owner `o`. -/
def isOwnerCall (o : PyObj) (m : String) : Event → Bool
  | Event.ownerMethodCalled o2 m2 _ => o2 == o && m2 == m
  | _ => false

theorem do_task_state_id (st : TaskState) (r : Option PyObj) :
    (do_task st r).1 = st := by
  unfold do_task
  rcases r with _ | r
  · rfl
  rcases r with v | xs | xs
  · rcases v with _ | n | x | s | i | i | _ <;>
      first
        | rfl
        | (dsimp only; split_ifs <;> rfl)
  · rfl
  · rfl

theorem do_task_first_event (st : TaskState) (r : Option PyObj) :
    (do_task st r).2.2.head? =
      some (Event.workInvoked st._function (get_args st)) := by
  unfold do_task
  rcases r with _ | r
  · rfl
  rcases r with v | xs | xs
  · rcases v with _ | n | x | s | i | i | _ <;>
      first
        | rfl
        | (dsimp only; split_ifs <;> rfl)
  · rfl
  · rfl

/-- **C5** (confirmed): rebinding the owner of an Active task delivers
"cleared" to the old owner first (under a `baseUponDeath false`, i.e.
`clean_exit = false`), then replaces the owner reference, then delivers
"added" to the new owner; the old owner receives no `_addTask` and the new
owner receives no `_clearTask`. -/
theorem C5_set_owner_rebinding
    (hm : PyObj → String → Bool) (st : TaskState) (o2 : PyObj)
    (h1 : st._state = TState.active) (h2 : st._owner ≠ pyNone)
    (h3 : o2 ≠ pyNone) (h4 : st._owner ≠ o2)
    (h5 : hm st._owner "_clearTask" = true)
    (h6 : hm o2 "_addTask" = true) :
    (set_owner hm st o2).1 = { st with _owner := o2 } ∧
    (set_owner hm st o2).2 =
      [Event.baseUponDeath false,
       Event.ownerMethodCalled st._owner "_clearTask" [PyVal.taskRef]] ++
      call_function st._upon_death ++
      [Event.baseUponBirth,
       Event.ownerMethodCalled o2 "_addTask" [PyVal.taskRef]] ∧
    (set_owner hm st o2).2.countP (isOwnerCall st._owner "_addTask") = 0 ∧
    (set_owner hm st o2).2.countP (isOwnerCall o2 "_clearTask") = 0 ∧
    (set_owner hm st o2).2.countP (isOwnerCall st._owner "_clearTask") = 1 ∧
    (set_owner hm st o2).2.countP (isOwnerCall o2 "_addTask") = 1 := by
  have hact : st._state ≠ TState.inactive := by rw [h1]; simp
  have key : (set_owner hm st o2).2 =
      [Event.baseUponDeath false,
       Event.ownerMethodCalled st._owner "_clearTask" [PyVal.taskRef]] ++
      call_function st._upon_death ++
      [Event.baseUponBirth,
       Event.ownerMethodCalled o2 "_addTask" [PyVal.taskRef]] := by
    simp only [set_owner, upon_death, upon_birth, call_owner_method]
    simp [h2, h3, h5, h6, hact]
  have hstate : (set_owner hm st o2).1 = { st with _owner := o2 } := rfl
  have h4s : o2 ≠ st._owner := Ne.symm h4
  refine ⟨hstate, key, ?_, ?_, ?_, ?_⟩ <;>
    · rw [key]
      by_cases hud : st._upon_death = pyNone <;>
        simp [call_function, hud, isOwnerCall, List.countP_append,
          List.countP_cons, beq_iff_eq, h4, h4s]

/-- Witness for `C5_set_owner_rebinding` at the concrete Active task `stA`
(owner `owner0`) rebinding to `owner1`. -/
theorem C5_witness :
    (set_owner hmAll stA owner1).1 = { stA with _owner := owner1 } ∧
    (set_owner hmAll stA owner1).2 =
      [Event.baseUponDeath false,
       Event.ownerMethodCalled stA._owner "_clearTask" [PyVal.taskRef]] ++
      call_function stA._upon_death ++
      [Event.baseUponBirth,
       Event.ownerMethodCalled owner1 "_addTask" [PyVal.taskRef]] ∧
    (set_owner hmAll stA owner1).2.countP
      (isOwnerCall stA._owner "_addTask") = 0 ∧
    (set_owner hmAll stA owner1).2.countP
      (isOwnerCall owner1 "_clearTask") = 0 ∧
    (set_owner hmAll stA owner1).2.countP
      (isOwnerCall stA._owner "_clearTask") = 1 ∧
    (set_owner hmAll stA owner1).2.countP
      (isOwnerCall owner1 "_addTask") = 1 :=
  C5_set_owner_rebinding hmAll stA owner1 (by decide) (by decide)
    (by decide) (by decide) (by decide) (by decide)

/-- **C6** (counterexample): giving `set_function` a non-invocable value
raises, but the task's state is *not* left unchanged — the invalid value is
stored as the work callable. -/
theorem C6_counterexample :
    (set_function stA (PyObj.val (PyVal.int 3))).2.countP isRaised = 1 ∧
    (set_function stA (PyObj.val (PyVal.int 3))).1._function =
      PyObj.val (PyVal.int 3) ∧
    (set_function stA (PyObj.val (PyVal.int 3))).1 ≠ stA := by
  decide

/-- **C6** (amended): when a setter is given a value of the wrong shape the
error is raised synchronously to the caller, but the task's state is
changed: `set_function` and `set_upon_death` store the invalid value
anyway, and `set_args` resets the template to the empty sequence and
updates the append-self flag. -/
theorem C6_setter_error_state (st : TaskState) (f : PyObj) (a : Bool) :
    (isCallable f = false →
      (set_function st f).2.countP isRaised = 1 ∧
      (set_function st f).1 = { st with _function := f }) ∧
    (f ≠ pyNone → isCallable f = false →
      (set_upon_death st f).2.countP isRaised = 1 ∧
      (set_upon_death st f).1 = { st with _upon_death := f }) ∧
    (f ≠ pyNone → isSequence f = false →
      (set_args st f a).2.countP isRaised = 1 ∧
      (set_args st f a).1 = { st with _args := [], _append_task := a }) := by
  refine ⟨fun h => ?_, fun h1 h2 => ?_, fun h1 h2 => ?_⟩
  · simp [set_function, h, isRaised, List.countP_cons]
  · simp [set_upon_death, h1, h2, isRaised, List.countP_cons]
  · simp [set_args, h1, h2, isRaised, List.countP_cons]

/-- Witness for `C6_setter_error_state` at the concrete task `stA` with the
non-invocable, non-sequence value `3`. -/
theorem C6_witness :
    ((set_function stA (PyObj.val (PyVal.int 3))).2.countP isRaised = 1 ∧
     (set_function stA (PyObj.val (PyVal.int 3))).1 =
       { stA with _function := PyObj.val (PyVal.int 3) }) ∧
    ((set_upon_death stA (PyObj.val (PyVal.int 3))).2.countP isRaised = 1 ∧
     (set_upon_death stA (PyObj.val (PyVal.int 3))).1 =
       { stA with _upon_death := PyObj.val (PyVal.int 3) }) ∧
    ((set_args stA (PyObj.val (PyVal.int 3)) true).2.countP isRaised = 1 ∧
     (set_args stA (PyObj.val (PyVal.int 3)) true).1 =
       { stA with _args := [], _append_task := true }) := by
  have h := C6_setter_error_state stA (PyObj.val (PyVal.int 3)) true
  exact ⟨h.1 (by decide), h.2.1 (by decide) (by decide),
    h.2.2 (by decide) (by decide)⟩

/-- **C7** (counterexample): writing the attribute `delay` (as opposed to
`delayTime`) with a non-numeric value does not fail at all — it is stored
in the open attribute bag, so the claim that such a write fails with
`InvalidArgument` fails. -/
theorem C7_counterexample :
    (setattr stA "delay" (PyObj.val (PyVal.str "x"))).2 = [] ∧
    (setattr stA "delay" (PyObj.val (PyVal.str "x"))).1._dict =
      [("delay", PyObj.val (PyVal.str "x"))] := by
  decide

/-- **C7** (amended): writing `delayTime` with a value not convertible to a
numeric duration raises the conversion error and leaves the task state
unchanged; writing the name `delay` is not intercepted — like any name
other than `delayTime`, `name` and `id` it inserts or overwrites the value
in the open attribute bag without error. -/
theorem C7_delay_write_routing (st : TaskState) (v : PyObj) (n : String)
    (h1 : asDouble v = Option.none)
    (h2 : n ≠ "delayTime") (h3 : n ≠ "name") (h4 : n ≠ "id") :
    ((setattr st "delayTime" v).1 = st ∧
     (setattr st "delayTime" v).2.countP isRaised = 1) ∧
    ((setattr st "delay" v).2 = [] ∧
     (setattr st "delay" v).1._dict = dictSet st._dict "delay" v) ∧
    ((setattr st n v).2 = [] ∧
     (setattr st n v).1._dict = dictSet st._dict n v) := by
  refine ⟨⟨?_, ?_⟩, ⟨?_, ?_⟩, ⟨?_, ?_⟩⟩ <;>
    simp [setattr, h1, h2, h3, h4, isRaised, List.countP_cons]

/-- Witness for `C7_delay_write_routing` at the concrete task `stA`, the
non-numeric value `"x"`, and the non-reserved name `"foo"`. -/
theorem C7_witness :
    ((setattr stA "delayTime" (PyObj.val (PyVal.str "x"))).1 = stA ∧
     (setattr stA "delayTime" (PyObj.val (PyVal.str "x"))).2.countP
       isRaised = 1) ∧
    ((setattr stA "delay" (PyObj.val (PyVal.str "x"))).2 = [] ∧
     (setattr stA "delay" (PyObj.val (PyVal.str "x"))).1._dict =
       dictSet stA._dict "delay" (PyObj.val (PyVal.str "x"))) ∧
    ((setattr stA "foo" (PyObj.val (PyVal.str "x"))).2 = [] ∧
     (setattr stA "foo" (PyObj.val (PyVal.str "x"))).1._dict =
       dictSet stA._dict "foo" (PyObj.val (PyVal.str "x"))) :=
  C7_delay_write_routing stA (PyObj.val (PyVal.str "x")) "foo" (by decide)
    (by decide) (by decide) (by decide)

/-- Iterated `run()`: threads the task state through a sequence of `do_task`
invocations, one per work-callable outcome. -/
def run_many (st : TaskState) : List (Option PyObj) → TaskState
  | [] => st
  | r :: rs => run_many (do_task st r).1 rs

theorem run_many_state_id (st : TaskState) (rs : List (Option PyObj)) :
    run_many st rs = st := by
  induction rs with
  | nil => rfl
  | cons r rs ih => rw [run_many, do_task_state_id, ih]

/-- **C8** (confirmed): with append-self enabled, each `do_task` builds a
fresh argument sequence — the stored template followed by the task itself —
and invokes the work callable with it; `setArgs(None, appendSelf)` leads to
the single argument `(task)` and `setArgs((7,8), appendSelf)` to
`(7, 8, task)`; the augmented sequence is never stored back (the state,
hence the template, is unchanged by any number of runs), so its length
stays `template length + 1` forever. -/
theorem C8_append_self (st : TaskState) (r : Option PyObj)
    (rs : List (Option PyObj)) (h : st._append_task = true) :
    get_args st = st._args ++ [PyVal.taskRef] ∧
    (get_args st).length = st._args.length + 1 ∧
    (do_task st r).1 = st ∧
    run_many st rs = st ∧
    (do_task st r).2.2.head? =
      some (Event.workInvoked st._function (st._args ++ [PyVal.taskRef])) ∧
    get_args (set_args st pyNone true).1 = [PyVal.taskRef] ∧
    get_args (set_args st (PyObj.tuple [PyVal.int 7, PyVal.int 8]) true).1 =
      [PyVal.int 7, PyVal.int 8, PyVal.taskRef] := by
  have hga : get_args st = st._args ++ [PyVal.taskRef] := by
    simp [get_args, h]
  refine ⟨hga, ?_, do_task_state_id st r, run_many_state_id st rs, ?_, ?_, ?_⟩
  · rw [hga]; simp
  · rw [do_task_first_event, hga]
  · simp [set_args, get_args, pyNone]
  · simp [set_args, get_args, isSequence, seqElems, pyNone]

/-- Witness for `C8_append_self` at the concrete task `stA` (empty
template, append-self enabled) with work outcomes `None` and an
exception. -/
theorem C8_witness :
    get_args stA = stA._args ++ [PyVal.taskRef] ∧
    (get_args stA).length = stA._args.length + 1 ∧
    (do_task stA (some pyNone)).1 = stA ∧
    run_many stA [Option.none, some pyNone] = stA ∧
    (do_task stA (some pyNone)).2.2.head? =
      some (Event.workInvoked stA._function
        (stA._args ++ [PyVal.taskRef])) ∧
    get_args (set_args stA pyNone true).1 = [PyVal.taskRef] ∧
    get_args
      (set_args stA (PyObj.tuple [PyVal.int 7, PyVal.int 8]) true).1 =
      [PyVal.int 7, PyVal.int 8, PyVal.taskRef] :=
  C8_append_self stA (some pyNone) [Option.none, some pyNone] (by decide)

/-- **C9** (confirmed): the task identifier is unchanged by `set_owner`,
`set_args`, `set_function`, `set_upon_death`, `do_task` and every attribute
write or delete; reading `id` returns it; and every write to `id` raises
and leaves the task unchanged. -/
theorem C9_id_stability (hm : PyObj → String → Bool) (st : TaskState)
    (o args f v : PyObj) (ap : Bool) (r : Option PyObj) (n : String) :
    (set_owner hm st o).1._task_id = st._task_id ∧
    (set_args st args ap).1._task_id = st._task_id ∧
    (set_function st f).1._task_id = st._task_id ∧
    (set_upon_death st f).1._task_id = st._task_id ∧
    (do_task st r).1._task_id = st._task_id ∧
    (setattr st n v).1._task_id = st._task_id ∧
    (delattr st n).1._task_id = st._task_id ∧
    getattr st "id" = some (PyObj.val (PyVal.int st._task_id)) ∧
    (setattr st "id" v).1 = st ∧
    (setattr st "id" v).2 = [Event.raised "Cannot set constant value"] := by
  refine ⟨rfl, ?_, rfl, rfl, ?_, ?_, ?_, ?_, ?_, ?_⟩
  · unfold set_args
    split_ifs <;> rfl
  · rw [do_task_state_id]
  · unfold setattr
    split_ifs
    · rcases asDouble v with _ | d <;> simp [set_delay]
    · rcases asString v with _ | s <;> simp [set_name]
    · rfl
    · rfl
  · unfold delattr
    rcases dictDel st._dict n with _ | d <;> rfl
  · simp [getattr]
  · simp [setattr]
  · simp [setattr]

/-- **C10** (confirmed): a freshly constructed task has append-self mode
enabled, an empty argument template, the `Py_None` sentinel as both
completion callback and owner, an empty attribute bag, and is Inactive
with the given id; consequently the first `run()` invokes the work
callable with exactly one argument, the task itself. -/
theorem C10_constructor_defaults (hm : PyObj → String → Bool) (f : PyObj)
    (name : String) (id : Int) (r : Option PyObj) :
    (mkPythonTask hm f name id).1 =
      { _function := f, _args := [], _upon_death := pyNone,
        _owner := pyNone, _dict := [], _append_task := true,
        _state := TState.inactive, _task_id := id, _name := name,
        _delay := Option.none, _elapsed := 0 } ∧
    get_args (mkPythonTask hm f name id).1 = [PyVal.taskRef] ∧
    (do_task (mkPythonTask hm f name id).1 r).2.2.head? =
      some (Event.workInvoked f [PyVal.taskRef]) := by
  have hst : (mkPythonTask hm f name id).1 =
      { _function := f, _args := [], _upon_death := pyNone,
        _owner := pyNone, _dict := [], _append_task := true,
        _state := TState.inactive, _task_id := id, _name := name,
        _delay := Option.none, _elapsed := 0 } := by
    simp [mkPythonTask, set_function, set_args, set_upon_death, set_owner]
  refine ⟨hst, ?_, ?_⟩
  · rw [hst]; rfl
  · rw [hst, do_task_first_event]; rfl
